import Mathlib

/-!
Verification of the table I/O layer of `pydrobert-kaldi`
(`src/python/pydrobert/kaldi/tables.py`) as a shallow embedding.

The Python module is a thin dispatch layer over SWIG-generated wrapper
classes (the `_internal` module, not part of the reviewable source).  The
dispatch logic, state transitions, option handling and every raised error
are translated directly from `tables.py`.  The behaviour of the generated
native readers and writers (the archive codec itself) is modelled from the
spec where the source only invokes it; every such definition carries a doc
comment starting with `Modelled from the spec:`.

Numeric data is modelled with exact rationals: the embedding's archive
stores written values exactly, which realises the spec's "numerically
close within the precision's epsilon" equality rule with distance zero.
-/

set_option autoImplicit false

/-- The nine data-type tags of `KaldiDataType` in `tables.py`. -/
inductive KaldiDataType where
  | BaseVector
  | DoubleVector
  | FloatVector
  | BaseMatrix
  | DoubleMatrix
  | FloatMatrix
  | WaveMatrix
  | Token
  | TokenVector
  deriving DecidableEq

/-- The string value of each enum member (`'bv'`, `'dv'`, ...). -/
def KaldiDataType.value : KaldiDataType → String
  | .BaseVector => "bv"
  | .DoubleVector => "dv"
  | .FloatVector => "fv"
  | .BaseMatrix => "bm"
  | .DoubleMatrix => "dm"
  | .FloatMatrix => "fm"
  | .WaveMatrix => "wm"
  | .Token => "t"
  | .TokenVector => "tv"

/-- `KaldiDataType.is_matrix`: membership test from the source. -/
def KaldiDataType.is_matrix (d : KaldiDataType) : Bool :=
  (["bm", "dm", "fm", "wm"] : List String).contains d.value

/-- `KaldiDataType.is_floating_point` from the source. -/
def KaldiDataType.is_floating_point (d : KaldiDataType) : Bool :=
  (["bv", "fv", "dv", "bm", "fm", "dm", "wm"] : List String).contains d.value

/-- `KaldiDataType.is_double` from the source; `kDoubleIsBase` is the
build-time constant `_internal.kDoubleIsBase`, passed as a parameter. -/
def KaldiDataType.is_double (kDoubleIsBase : Bool) (d : KaldiDataType) : Bool :=
  if (["bv", "bm", "wm"] : List String).contains d.value then kDoubleIsBase
  else if (["dv", "dm"] : List String).contains d.value then true
  else false

/-- A Python value handed to `write` (array-like, 2-D array-like with an
explicit shape so that degenerate `(0, X)` / `(X, 0)` shapes are
representable, a bare string, or a sequence of strings). -/
inductive PyValue where
  | arr (xs : List ℚ)
  | mat (r c : Nat) (data : List (List ℚ))
  | str (s : String)
  | strList (ts : List String)
  deriving DecidableEq

/-- `isinstance(value, str)` on a `PyValue`. -/
def PyValue.isStr : PyValue → Bool
  | .str _ => true
  | _ => false

/-- A value stored in an archive entry (post-encoding). -/
inductive KValue where
  | vec (xs : List ℚ)
  | mat (r c : Nat) (data : List (List ℚ))
  | tok (s : String)
  | tokVec (ts : List String)
  deriving DecidableEq

/-- The error kinds the Python layer can surface. -/
inductive KaldiError where
  | valueError (msg : String)
  | typeError (msg : String)
  | keyError (key : String)
  | ioError (msg : String)
  | stopIteration
  | assertionError
  deriving DecidableEq

/-- The message of the use-after-close `ValueError` in `tables.py`. -/
def closedFileMsg : String := "I/O operation on a closed file"

/-- Message of the `IOError` raised by `KaldiSequentialTableReader._open`. -/
def seqOpenFailMsg (xf : String) : String :=
  "Unable to open file \"" ++ xf ++ "\" for sequential read."

/-- Message of the `IOError` raised by the random-access reader's and the
writer's `_open` (both use the same format string in the source). -/
def writeOpenFailMsg (xf : String) : String :=
  "Unable to open file \"" ++ xf ++ "\" for writing."

/-- Message of the `TypeError` raised by `KaldiTableWriter.write` when a
bare string is written in strict token-vector mode. -/
def tvStrRejectMsg : String :=
  "Writing strings as vectors was disallowed. If desired, set tv_error_on_str to False on open."

/-- Message of the `ValueError` raised by the factory `open` on a bad mode. -/
def badModeMsg (mode : String) : String :=
  "Invalid Kaldi I/O mode \"" ++ mode ++ "\" (should be one of \"r\",\"r+\",\"w\")"

/-- Modelled from the spec: the type-mismatch failure raised inside the
SWIG-generated `Write` (not under `src/`) when a value cannot be cast to
the bound data type. -/
def castFailMsg : String := "value cannot be cast to the kaldi data type"

/-- Modelled from the spec: normalization performed by the native matrix
`Write` (not under `src/`), documented in the source's `write` docstring:
input of shape `(0, X)` or `(X, 0)` with `X > 0` is converted to `(0, 0)`. -/
def normalizeMat (r c : Nat) (data : List (List ℚ)) : KValue :=
  if (r = 0 ∧ c ≠ 0) ∨ (r ≠ 0 ∧ c = 0) then KValue.mat 0 0 []
  else KValue.mat r c data

/-- The single-character tokens of a string (Python `list(s)`). -/
def charTokens (s : String) : List String :=
  s.toList.map (fun c => String.mk [c])

/-- Modelled from the spec: the SWIG-generated writers' `Write` codec (not
under `src/`).  A value matching the bound data type is stored; matrices
are shape-normalized; a bare string written as a token vector (reachable
only when the Python layer's strict check is off) is decomposed into
one-token-per-character; anything else is a type-mismatch failure. -/
def encodeValue (d : KaldiDataType) (v : PyValue) : Except KaldiError KValue :=
  match d, v with
  | .DoubleVector, .arr xs => Except.ok (KValue.vec xs)
  | .FloatVector, .arr xs => Except.ok (KValue.vec xs)
  | .DoubleMatrix, .mat r c data => Except.ok (normalizeMat r c data)
  | .FloatMatrix, .mat r c data => Except.ok (normalizeMat r c data)
  | .WaveMatrix, .mat r c data => Except.ok (normalizeMat r c data)
  | .Token, .str s => Except.ok (KValue.tok s)
  | .TokenVector, .strList ts => Except.ok (KValue.tokVec ts)
  | .TokenVector, .str s => Except.ok (KValue.tokVec (charTokens s))
  | _, _ => Except.error (KaldiError.typeError castFailMsg)

/-- State of a `KaldiSequentialTableReader`: `internal` is `none` when
closed, otherwise the remaining entries of the archive stream. -/
structure KaldiSequentialTableReader where
  internal : Option (List (String × KValue))
  with_keys : Bool
  deriving DecidableEq

/-- An item yielded by the sequential reader's iteration. -/
inductive SeqItem where
  | justVal (v : KValue)
  | keyed (k : String) (v : KValue)
  deriving DecidableEq

/-- `KaldiSequentialTableReader.close` from the source: release the native
reader if set; a no-op on a closed handle. -/
def KaldiSequentialTableReader.close (st : KaldiSequentialTableReader) :
    KaldiSequentialTableReader :=
  { st with internal := none }

/-- `KaldiSequentialTableReader.__iter__` from the source. -/
def KaldiSequentialTableReader.iterStart (st : KaldiSequentialTableReader) :
    Except KaldiError KaldiSequentialTableReader :=
  match st.internal with
  | none => Except.error (KaldiError.valueError closedFileMsg)
  | some _ => Except.ok st

/-- `KaldiSequentialTableReader.__next__` from the source: error on a
closed handle; `StopIteration` when the native reader is `Done()`;
otherwise yield `Value()` (with `Key()` when `with_keys`) and advance. -/
def KaldiSequentialTableReader.next (st : KaldiSequentialTableReader) :
    Except KaldiError (SeqItem × KaldiSequentialTableReader) :=
  match st.internal with
  | none => Except.error (KaldiError.valueError closedFileMsg)
  | some [] => Except.error KaldiError.stopIteration
  | some ((k, v) :: rest) =>
      let ret := if st.with_keys then SeqItem.keyed k v else SeqItem.justVal v
      Except.ok (ret, { st with internal := some rest })

/-- Drain up to `fuel` items from a sequential reader by repeated `next`. -/
def readAll : Nat → KaldiSequentialTableReader →
    List SeqItem × KaldiSequentialTableReader
  | 0, st => ([], st)
  | Nat.succ fuel, st =>
      match KaldiSequentialTableReader.next st with
      | Except.error _ => ([], st)
      | Except.ok (r, st2) =>
          let p := readAll fuel st2
          (r :: p.1, p.2)

/-- The resource owned by an open random-access reader: the indexed table
and, for the mapped readers, the key-translation map. -/
structure RATable where
  table : List (String × KValue)
  keyMap : Option (List (String × String))
  deriving DecidableEq

/-- State of a `KaldiRandomAccessTableReader`. -/
structure KaldiRandomAccessTableReader where
  internal : Option RATable
  deriving DecidableEq

/-- `KaldiRandomAccessTableReader.close` from the source. -/
def KaldiRandomAccessTableReader.close (st : KaldiRandomAccessTableReader) :
    KaldiRandomAccessTableReader :=
  { st with internal := none }

/-- Modelled from the spec: `HasKey`/`Value` of the SWIG-generated readers
(not under `src/`).  The plain readers look the key up in the index; the
mapped readers first translate the key through the secondary map and fail
as a missing key when the mapping is absent. -/
def raLookup (t : RATable) (key : String) : Option KValue :=
  match t.keyMap with
  | none => t.table.lookup key
  | some m =>
      match m.lookup key with
      | none => none
      | some k2 => t.table.lookup k2

/-- `KaldiRandomAccessTableReader.get` from the source. -/
def KaldiRandomAccessTableReader.get (st : KaldiRandomAccessTableReader)
    (key : String) (will_raise : Bool) : Except KaldiError (Option KValue) :=
  match st.internal with
  | none => Except.error (KaldiError.valueError closedFileMsg)
  | some t =>
      match raLookup t key with
      | none =>
          if will_raise then Except.error (KaldiError.keyError key)
          else Except.ok none
      | some v => Except.ok (some v)

/-- `KaldiRandomAccessTableReader.__getitem__` from the source:
`self.get(key, will_raise=True)`. -/
def KaldiRandomAccessTableReader.getItem (st : KaldiRandomAccessTableReader)
    (key : String) : Except KaldiError (Option KValue) :=
  KaldiRandomAccessTableReader.get st key true

/-- The resource owned by an open writer: the bound (concrete) data type
of the native writer and the entries written so far. -/
structure WriterInternal where
  dtype : KaldiDataType
  written : List (String × KValue)
  deriving DecidableEq

/-- State of a `KaldiTableWriter`.  `error_on_str` is the Python-level
`_error_on_str` attribute, which survives open failures and closes. -/
structure KaldiTableWriter where
  error_on_str : Bool
  internal : Option WriterInternal
  deriving DecidableEq

/-- `KaldiTableWriter.close` from the source. -/
def KaldiTableWriter.close (st : KaldiTableWriter) : KaldiTableWriter :=
  { st with internal := none }

/-- `KaldiTableWriter.write` from the source: closed check, then the
strict token-vector bare-string rejection, then the native `Write`. -/
def KaldiTableWriter.write (st : KaldiTableWriter) (key : String)
    (value : PyValue) : Except KaldiError KaldiTableWriter :=
  match st.internal with
  | none => Except.error (KaldiError.valueError closedFileMsg)
  | some wi =>
      if st.error_on_str && value.isStr then
        Except.error (KaldiError.typeError tvStrRejectMsg)
      else
        match encodeValue wi.dtype value with
        | Except.error e => Except.error e
        | Except.ok kv =>
            Except.ok
              { st with internal := some ⟨wi.dtype, wi.written ++ [(key, kv)]⟩ }

/-- Write a list of pairs in order with `KaldiTableWriter.write`. -/
def writeAll (st : KaldiTableWriter) :
    List (String × PyValue) → Except KaldiError KaldiTableWriter
  | [] => Except.ok st
  | (k, v) :: rest =>
      match KaldiTableWriter.write st k v with
      | Except.error e => Except.error e
      | Except.ok st2 => writeAll st2 rest

/-- `KaldiIO.open`'s base-alias resolution from the source: `BaseVector`
and `BaseMatrix` are replaced by the concrete precision selected by the
build constant `kDoubleIsBase` before `_open` dispatch. -/
def resolveDtype (kDoubleIsBase : Bool) (d : KaldiDataType) : KaldiDataType :=
  if d = KaldiDataType.BaseVector then
    if kDoubleIsBase then KaldiDataType.DoubleVector else KaldiDataType.FloatVector
  else if d = KaldiDataType.BaseMatrix then
    if kDoubleIsBase then KaldiDataType.DoubleMatrix else KaldiDataType.FloatMatrix
  else d

/-- Whether a data type has a generated wrapper class in the `_open`
dispatch chains (every type except the base aliases; with `cls = None`
the source's `assert cls` fails). -/
def concreteDtype (d : KaldiDataType) : Bool :=
  !(d = KaldiDataType.BaseVector || d = KaldiDataType.BaseMatrix)

/-- The environment a handle is opened against: the build's precision
constant and, for the location being opened, the outcome of the native
`Open` calls (`none`/`false` meaning the native open fails).  Tables are
indexed by the concrete data type because each type selects a different
generated reader class. -/
structure KaldiEnv where
  kDoubleIsBase : Bool
  seqTable : KaldiDataType → Option (List (String × KValue))
  raTable : KaldiDataType → Option (List (String × KValue))
  mapFiles : String → Option (List (String × String))
  canWrite : KaldiDataType → Bool

/-- Python truthiness of the optional `utt2spk` argument (`if utt2spk:`):
`None` and the empty string are falsy. -/
def truthy : Option String → Bool
  | none => false
  | some s => !(s = "")

/-- `KaldiSequentialTableReader._open` from the source: `_with_keys` is
assigned before the dispatch; the native `Open` failure raises an
`IOError` and leaves `_internal` unassigned. -/
def seqOpenImpl (env : KaldiEnv) (xf : String) (d : KaldiDataType)
    (with_keys : Bool) (st : KaldiSequentialTableReader) :
    KaldiSequentialTableReader × Option KaldiError :=
  let st1 : KaldiSequentialTableReader := { st with with_keys := with_keys }
  if concreteDtype d then
    match env.seqTable d with
    | some l => ({ internal := some l, with_keys := with_keys }, none)
    | none => (st1, some (KaldiError.ioError (seqOpenFailMsg xf)))
  else (st1, some KaldiError.assertionError)

/-- `KaldiSequentialTableReader.open` (via `KaldiIO.open`): base-alias
resolution followed by `_open`. -/
def seqOpenFull (env : KaldiEnv) (xf : String) (d : KaldiDataType)
    (with_keys : Bool) (st : KaldiSequentialTableReader) :
    KaldiSequentialTableReader × Option KaldiError :=
  seqOpenImpl env xf (resolveDtype env.kDoubleIsBase d) with_keys st

/-- The generated random-access reader classes named in the source's
dispatch chain. -/
inductive RAClass where
  | RandomAccessDoubleVectorReaderMapped
  | RandomAccessDoubleVectorReader
  | RandomAccessFloatVectorReaderMapped
  | RandomAccessFloatVectorReader
  | RandomAccessDoubleMatrixReaderMapped
  | RandomAccessDoubleMatrixReader
  | RandomAccessFloatMatrixReaderMapped
  | RandomAccessFloatMatrixReader
  | RandomAccessWaveReader
  | RandomAccessTokenReader
  | RandomAccessTokenVectorReader
  deriving DecidableEq

/-- Whether a generated class is one of the mapped readers (those that
translate lookup keys through a secondary `utt2spk` map). -/
def RAClass.isMapped : RAClass → Bool
  | .RandomAccessDoubleVectorReaderMapped => true
  | .RandomAccessFloatVectorReaderMapped => true
  | .RandomAccessDoubleMatrixReaderMapped => true
  | .RandomAccessFloatMatrixReaderMapped => true
  | _ => false

/-- The class-selection chain of `KaldiRandomAccessTableReader._open`,
verbatim from the source: only the four explicit-precision vector/matrix
types select a `...Mapped` class when `utt2spk` is truthy; `WaveMatrix`,
`Token` and `TokenVector` ignore `utt2spk` in the selection; the base
aliases leave `cls = None` (`assert cls` fails). -/
def selectRAClass (d : KaldiDataType) (utt2spk : Option String) : Option RAClass :=
  if d = KaldiDataType.DoubleVector then
    some (if truthy utt2spk then RAClass.RandomAccessDoubleVectorReaderMapped
          else RAClass.RandomAccessDoubleVectorReader)
  else if d = KaldiDataType.FloatVector then
    some (if truthy utt2spk then RAClass.RandomAccessFloatVectorReaderMapped
          else RAClass.RandomAccessFloatVectorReader)
  else if d = KaldiDataType.DoubleMatrix then
    some (if truthy utt2spk then RAClass.RandomAccessDoubleMatrixReaderMapped
          else RAClass.RandomAccessDoubleMatrixReader)
  else if d = KaldiDataType.FloatMatrix then
    some (if truthy utt2spk then RAClass.RandomAccessFloatMatrixReaderMapped
          else RAClass.RandomAccessFloatMatrixReader)
  else if d = KaldiDataType.WaveMatrix then some RAClass.RandomAccessWaveReader
  else if d = KaldiDataType.Token then some RAClass.RandomAccessTokenReader
  else if d = KaldiDataType.TokenVector then some RAClass.RandomAccessTokenVectorReader
  else none

/-- Modelled from the spec: message of the fault produced by the
SWIG-generated wrapper (not under `src/`) when a non-mapped reader's
`Open` is called with the extra `utt2spk` argument, as the source does
for `WaveMatrix`, `Token` and `TokenVector`. -/
def swigArityMsg : String := "Open() takes at most 2 arguments"

/-- `KaldiRandomAccessTableReader._open` from the source: class selection,
then `instance.Open(xfilename, utt2spk)` when `utt2spk` is truthy (which
for a non-mapped class is a wrapper-level fault, modelled from the spec)
or `instance.Open(xfilename)` otherwise; a `False` result raises an
`IOError` and leaves `_internal` unassigned. -/
def raOpenImpl (env : KaldiEnv) (xf : String) (d : KaldiDataType)
    (utt2spk : Option String) (st : KaldiRandomAccessTableReader) :
    KaldiRandomAccessTableReader × Option KaldiError :=
  match selectRAClass d utt2spk with
  | none => (st, some KaldiError.assertionError)
  | some cls =>
      if truthy utt2spk then
        if cls.isMapped then
          match env.raTable d, env.mapFiles ((utt2spk).getD "") with
          | some tbl, some m => (⟨some ⟨tbl, some m⟩⟩, none)
          | some _, none => (st, some (KaldiError.ioError (writeOpenFailMsg xf)))
          | none, _ => (st, some (KaldiError.ioError (writeOpenFailMsg xf)))
        else (st, some (KaldiError.typeError swigArityMsg))
      else
        match env.raTable d with
        | some tbl => (⟨some ⟨tbl, none⟩⟩, none)
        | none => (st, some (KaldiError.ioError (writeOpenFailMsg xf)))

/-- `KaldiRandomAccessTableReader.open` (via `KaldiIO.open`). -/
def raOpenFull (env : KaldiEnv) (xf : String) (d : KaldiDataType)
    (utt2spk : Option String) (st : KaldiRandomAccessTableReader) :
    KaldiRandomAccessTableReader × Option KaldiError :=
  raOpenImpl env xf (resolveDtype env.kDoubleIsBase d) utt2spk st

/-- The Python default of the `tv_error_on_str` keyword of
`KaldiTableWriter._open`. -/
def tv_error_on_str_default : Bool := true

/-- `KaldiTableWriter._open` from the source: `_error_on_str` is reset to
`False` and set to `tv_error_on_str` only in the `TokenVector` branch,
all before the native `Open`; an `Open` failure raises an `IOError` and
leaves `_internal` unassigned. -/
def writerOpenImpl (env : KaldiEnv) (xf : String) (d : KaldiDataType)
    (tv_error_on_str : Bool) (st : KaldiTableWriter) :
    KaldiTableWriter × Option KaldiError :=
  let eos := if d = KaldiDataType.TokenVector then tv_error_on_str else false
  let st1 : KaldiTableWriter := { st with error_on_str := eos }
  if concreteDtype d then
    if env.canWrite d then ({ error_on_str := eos, internal := some ⟨d, []⟩ }, none)
    else (st1, some (KaldiError.ioError (writeOpenFailMsg xf)))
  else (st1, some KaldiError.assertionError)

/-- `KaldiTableWriter.open` (via `KaldiIO.open`). -/
def writerOpenFull (env : KaldiEnv) (xf : String) (d : KaldiDataType)
    (tv_error_on_str : Bool) (st : KaldiTableWriter) :
    KaldiTableWriter × Option KaldiError :=
  writerOpenImpl env xf (resolveDtype env.kDoubleIsBase d) tv_error_on_str st

/-- The handle returned by the factory `tables.open`. -/
inductive OpenedHandle where
  | seq (st : KaldiSequentialTableReader)
  | ra (st : KaldiRandomAccessTableReader)
  | writer (st : KaldiTableWriter)
  deriving DecidableEq

/-- The factory `tables.open` from the source, with the per-class option
defaults.  The second component records which locations a native open was
attempted for: the invalid-mode branch raises before constructing any
handle, so it attempts none. -/
def tablesOpen (env : KaldiEnv) (xf : String) (d : KaldiDataType)
    (mode : String) : Except KaldiError OpenedHandle × List String :=
  if mode = "r" then
    match seqOpenFull env xf d false ⟨none, false⟩ with
    | (st, none) => (Except.ok (OpenedHandle.seq st), [xf])
    | (_, some e) => (Except.error e, [xf])
  else if mode = "r+" then
    match raOpenFull env xf d none ⟨none⟩ with
    | (st, none) => (Except.ok (OpenedHandle.ra st), [xf])
    | (_, some e) => (Except.error e, [xf])
  else if mode = "w" || mode = "w+" then
    match writerOpenFull env xf d tv_error_on_str_default ⟨false, none⟩ with
    | (st, none) => (Except.ok (OpenedHandle.writer st), [xf])
    | (_, some e) => (Except.error e, [xf])
  else
    (Except.error (KaldiError.valueError (badModeMsg mode)), [])

/-- The spec's per-type equality rule between a written Python value and a
value read back: exact for tokens and token sequences, elementwise within
`eps` (and shape-equal) for vectors and matrices. -/
def eqRule (eps : ℚ) (w : PyValue) (r : KValue) : Prop :=
  match w, r with
  | .arr xs, .vec ys => List.Forall₂ (fun a b => |a - b| ≤ eps) xs ys
  | .mat r1 c1 d1, .mat r2 c2 d2 =>
      r1 = r2 ∧ c1 = c2 ∧
      List.Forall₂ (List.Forall₂ (fun a b => |a - b| ≤ eps)) d1 d2
  | .str s, .tok t => s = t
  | .strList ts, .tokVec us => ts = us
  | _, _ => False

/-- A value whose encoding is faithful: its matrix shape is not degenerate
(exactly one zero axis would be normalized away) and it is not a bare
string written as a token vector (which would be decomposed). -/
def goodValue (d : KaldiDataType) (v : PyValue) : Prop :=
  (∀ r c data, v = PyValue.mat r c data → ((r = 0 ∧ c = 0) ∨ (r ≠ 0 ∧ c ≠ 0))) ∧
  (d = KaldiDataType.TokenVector → ∀ s, v ≠ PyValue.str s)

/-- A sample environment in which every native open fails. -/
def envEmpty : KaldiEnv :=
  ⟨false, fun _ => none, fun _ => none, fun _ => none, fun _ => false⟩

/-- A sample environment in which every native open succeeds with empty
content. -/
def envOk : KaldiEnv :=
  ⟨false, fun _ => some [], fun _ => some [], fun _ => some [], fun _ => true⟩

/-- A sample environment with a one-entry speaker-keyed table and a
one-entry utterance-to-speaker map. -/
def envMapped : KaldiEnv :=
  ⟨false, fun _ => none, fun _ => some [("spk1", KValue.vec [1])],
   fun _ => some [("utt1", "spk1")], fun _ => false⟩

/-- Draining an open sequential reader with `next` yields exactly the
remaining entries in order and ends with the cursor past the last one. -/
theorem readAll_drain (l : List (String × KValue)) (wk : Bool) :
    readAll l.length ⟨some l, wk⟩ =
      (l.map (fun p => if wk then SeqItem.keyed p.1 p.2 else SeqItem.justVal p.2),
       ⟨some [], wk⟩) := by
  induction l with
  | nil => rfl
  | cons p rest ih =>
    obtain ⟨k, v⟩ := p
    simp [readAll, KaldiSequentialTableReader.next, ih]

/-- Base-alias resolution always produces a type with a generated class. -/
theorem resolve_concrete (f : Bool) (d : KaldiDataType) :
    concreteDtype (resolveDtype f d) = true := by
  cases d <;> cases f <;> decide

/-- A bare array value is good for every data type. -/
theorem goodValue_arr (d : KaldiDataType) (xs : List ℚ) :
    goodValue d (PyValue.arr xs) := by
  constructor
  · intro r c data h; simp at h
  · intro _ s h; simp at h

/-- A token-sequence value is good for every data type. -/
theorem goodValue_strList (d : KaldiDataType) (ts : List String) :
    goodValue d (PyValue.strList ts) := by
  constructor
  · intro r c data h; simp at h
  · intro _ s h; simp at h

/-- Encoding a good value is faithful up to the type's equality rule. -/
theorem encodeValue_eqRule (eps : ℚ) (heps : 0 ≤ eps) (d : KaldiDataType)
    (v : PyValue) (kv : KValue) (he : encodeValue d v = Except.ok kv)
    (hg : goodValue d v) : eqRule eps v kv := by
  obtain ⟨hmat, htv⟩ := hg
  have habs : ∀ x : ℚ, |x - x| ≤ eps := fun x => by simp [sub_self, abs_zero, heps]
  have hvec : ∀ xs : List ℚ, List.Forall₂ (fun a b => |a - b| ≤ eps) xs xs :=
    fun xs => List.forall₂_same.mpr (fun x _ => habs x)
  have hmatgood : ∀ r c data, ((r = 0 ∧ c = 0) ∨ (r ≠ 0 ∧ c ≠ 0)) →
      normalizeMat r c data = KValue.mat r c data := by
    intro r c data hs
    unfold normalizeMat
    rw [if_neg]
    rcases hs with ⟨h1, h2⟩ | ⟨h1, h2⟩ <;> simp [h1, h2]
  cases d with
  | BaseVector => cases v <;> simp [encodeValue] at he
  | BaseMatrix => cases v <;> simp [encodeValue] at he
  | DoubleVector =>
    cases v <;> simp [encodeValue] at he
    subst he; exact hvec _
  | FloatVector =>
    cases v <;> simp [encodeValue] at he
    subst he; exact hvec _
  | DoubleMatrix =>
    cases v <;> simp [encodeValue] at he
    rename_i r c data
    rw [hmatgood r c data (hmat r c data rfl)] at he
    subst he
    exact ⟨rfl, rfl, List.forall₂_same.mpr (fun row _ => hvec row)⟩
  | FloatMatrix =>
    cases v <;> simp [encodeValue] at he
    rename_i r c data
    rw [hmatgood r c data (hmat r c data rfl)] at he
    subst he
    exact ⟨rfl, rfl, List.forall₂_same.mpr (fun row _ => hvec row)⟩
  | WaveMatrix =>
    cases v <;> simp [encodeValue] at he
    rename_i r c data
    rw [hmatgood r c data (hmat r c data rfl)] at he
    subst he
    exact ⟨rfl, rfl, List.forall₂_same.mpr (fun row _ => hvec row)⟩
  | Token =>
    cases v <;> simp [encodeValue] at he
    subst he; exact rfl
  | TokenVector =>
    cases v with
    | arr xs => simp [encodeValue] at he
    | mat r c data => simp [encodeValue] at he
    | str s => exact (htv rfl s rfl).elim
    | strList ts =>
      simp [encodeValue] at he
      subst he; exact rfl

/-- A successful `writeAll` on an open writer appends, in order, the
encodings of the given pairs, each faithful to its source value. -/
theorem writeAll_ok_spec (eps : ℚ) (heps : 0 ≤ eps) (b : Bool) (d : KaldiDataType) :
    ∀ (pairs : List (String × PyValue)) (w0 : List (String × KValue))
      (stW : KaldiTableWriter),
      writeAll ⟨b, some ⟨d, w0⟩⟩ pairs = Except.ok stW →
      (∀ p ∈ pairs, goodValue d p.2) →
      ∃ out, stW = ⟨b, some ⟨d, w0 ++ out⟩⟩ ∧
        out.map Prod.fst = pairs.map Prod.fst ∧
        List.Forall₂ (fun p q => eqRule eps p.2 q.2) pairs out := by
  intro pairs
  induction pairs with
  | nil =>
    intro w0 stW hw _
    refine ⟨[], ?_, rfl, List.Forall₂.nil⟩
    simp [writeAll] at hw
    simp [← hw]
  | cons p rest ih =>
    intro w0 stW hw hg
    obtain ⟨k, v⟩ := p
    cases hbs : (b && PyValue.isStr v) with
    | true =>
      simp only [writeAll, KaldiTableWriter.write, hbs] at hw
      simp at hw
    | false =>
      cases he : encodeValue d v with
      | error e =>
        simp only [writeAll, KaldiTableWriter.write, hbs, he] at hw
        simp at hw
      | ok kv =>
        simp only [writeAll, KaldiTableWriter.write, hbs, he] at hw
        obtain ⟨out, h1, h2, h3⟩ :=
          ih (w0 ++ [(k, kv)]) stW hw (fun q hq => hg q (List.mem_cons_of_mem _ hq))
        refine ⟨(k, kv) :: out, ?_, ?_, ?_⟩
        · rw [h1]; simp
        · simp [h2]
        · exact List.Forall₂.cons
            (encodeValue_eqRule eps heps d v kv he (hg (k, v) (List.mem_cons_self _ _))) h3

/-- Claim C2: on an open random-access reader, `get` of an absent key
returns `None` (`will_raise=False`) or raises `KeyError`
(`will_raise=True`); `get` of a present key returns exactly the stored
value; and `__getitem__` is `get` with `will_raise=True`. -/
theorem claim2_get_semantics (st : KaldiRandomAccessTableReader) (t : RATable)
    (key : String) (h : st.internal = some t) :
    (raLookup t key = none →
      st.get key false = Except.ok none ∧
      st.get key true = Except.error (KaldiError.keyError key)) ∧
    (∀ v, raLookup t key = some v → ∀ b, st.get key b = Except.ok (some v)) ∧
    st.getItem key = st.get key true := by
  cases st with
  | mk i =>
    cases h
    refine ⟨fun hn => ?_, fun v hv b => ?_, rfl⟩
    · constructor <;> simp [KaldiRandomAccessTableReader.get, hn]
    · simp [KaldiRandomAccessTableReader.get, hv]

/-- Witness for C2 on a concrete one-entry table. -/
theorem claim2_get_semantics_witness :
    KaldiRandomAccessTableReader.get ⟨some ⟨[("a", KValue.tok "x")], none⟩⟩ "a" false
      = Except.ok (some (KValue.tok "x")) ∧
    KaldiRandomAccessTableReader.get ⟨some ⟨[("a", KValue.tok "x")], none⟩⟩ "b" false
      = Except.ok none ∧
    KaldiRandomAccessTableReader.get ⟨some ⟨[("a", KValue.tok "x")], none⟩⟩ "b" true
      = Except.error (KaldiError.keyError "b") := by
  have h1 := claim2_get_semantics ⟨some ⟨[("a", KValue.tok "x")], none⟩⟩
    ⟨[("a", KValue.tok "x")], none⟩ "a" rfl
  have h2 := claim2_get_semantics ⟨some ⟨[("a", KValue.tok "x")], none⟩⟩
    ⟨[("a", KValue.tok "x")], none⟩ "b" rfl
  exact ⟨h1.2.1 (KValue.tok "x") (by decide) false,
    (h2.1 (by decide)).1, (h2.1 (by decide)).2⟩

/-- Claim C3: a second `close` is a no-op (and `close` on an
already-closed handle is a no-op), and after `close` every I/O operation
fails with the closed-file `ValueError`, for all three handle kinds. -/
theorem claim3_close_semantics (stS : KaldiSequentialTableReader)
    (stR : KaldiRandomAccessTableReader) (stW : KaldiTableWriter)
    (key : String) (v : PyValue) (b : Bool) :
    stS.close.close = stS.close ∧
    stR.close.close = stR.close ∧
    stW.close.close = stW.close ∧
    (stS.internal = none → stS.close = stS) ∧
    (stR.internal = none → stR.close = stR) ∧
    (stW.internal = none → stW.close = stW) ∧
    stS.close.next = Except.error (KaldiError.valueError closedFileMsg) ∧
    stS.close.iterStart = Except.error (KaldiError.valueError closedFileMsg) ∧
    stR.close.get key b = Except.error (KaldiError.valueError closedFileMsg) ∧
    stR.close.getItem key = Except.error (KaldiError.valueError closedFileMsg) ∧
    stW.close.write key v = Except.error (KaldiError.valueError closedFileMsg) := by
  refine ⟨rfl, rfl, rfl, ?_, ?_, ?_, rfl, rfl, rfl, rfl, rfl⟩
  · intro h
    cases stS with
    | mk i wk => cases h; rfl
  · intro h
    cases stR with
    | mk i => cases h; rfl
  · intro h
    cases stW with
    | mk e i => cases h; rfl

/-- Witness for C3 at concrete closed handles. -/
theorem claim3_close_semantics_witness :
    KaldiSequentialTableReader.close ⟨none, false⟩ = ⟨none, false⟩ ∧
    KaldiRandomAccessTableReader.close ⟨none⟩ = ⟨none⟩ ∧
    KaldiTableWriter.close ⟨false, none⟩ = ⟨false, none⟩ ∧
    KaldiSequentialTableReader.next (KaldiSequentialTableReader.close ⟨none, false⟩)
      = Except.error (KaldiError.valueError closedFileMsg) := by
  have h := claim3_close_semantics ⟨none, false⟩ ⟨none⟩ ⟨false, none⟩ "k" (PyValue.str "s") false
  exact ⟨h.2.2.2.1 rfl, h.2.2.2.2.1 rfl, h.2.2.2.2.2.1 rfl, h.2.2.2.2.2.2.1⟩

/-- Claim C4: `next` on an open but exhausted sequential reader fails with
`StopIteration`, returns no data, and — the state being unchanged — every
repeated call fails identically. -/
theorem claim4_exhausted_next (st : KaldiSequentialTableReader)
    (h : st.internal = some []) :
    st.next = Except.error KaldiError.stopIteration ∧
    ∀ out, st.next ≠ Except.ok out := by
  cases st with
  | mk i wk =>
    cases h
    exact ⟨rfl, fun out hc => by cases hc⟩

/-- Witness for C4 at a concrete exhausted reader. -/
theorem claim4_exhausted_next_witness :
    KaldiSequentialTableReader.next ⟨some [], false⟩
      = Except.error KaldiError.stopIteration ∧
    ∀ out, KaldiSequentialTableReader.next ⟨some [], false⟩ ≠ Except.ok out :=
  claim4_exhausted_next ⟨some [], false⟩ rfl

/-- Claim C1 (amended): for every supported value type, writing a finite
sequence of pairs in order and sequential-reading the location back yields
the same keys in the same order, with each value equal under the type's
equality rule, provided no written matrix value has exactly one zero axis
and no bare string is written as a token-vector value (the writer's
documented normalizations rewrite those); a further `next` call after the
last entry fails with `StopIteration`. -/
theorem claim1_roundtrip (d : KaldiDataType) (pairs : List (String × PyValue))
    (eps : ℚ) (b : Bool) (stW : KaldiTableWriter) (xf : String)
    (heps : 0 ≤ eps)
    (hw : writeAll ⟨b, some ⟨d, []⟩⟩ pairs = Except.ok stW)
    (hg : ∀ p ∈ pairs, goodValue d p.2) :
    ∃ out : List (String × KValue),
      stW.internal = some ⟨d, out⟩ ∧
      out.map Prod.fst = pairs.map Prod.fst ∧
      List.Forall₂ (fun p q => eqRule eps p.2 q.2) pairs out ∧
      (∀ env : KaldiEnv, env.seqTable d = some out → concreteDtype d = true →
        seqOpenImpl env xf d true ⟨none, false⟩ = (⟨some out, true⟩, none)) ∧
      readAll out.length ⟨some out, true⟩ =
        (out.map (fun q => SeqItem.keyed q.1 q.2), ⟨some [], true⟩) ∧
      KaldiSequentialTableReader.next ⟨some [], true⟩ =
        Except.error KaldiError.stopIteration := by
  obtain ⟨out, h1, h2, h3⟩ := writeAll_ok_spec eps heps b d pairs [] stW hw hg
  refine ⟨out, ?_, h2, h3, ?_, ?_, rfl⟩
  · rw [h1]; rfl
  · intro env he hc
    simp [seqOpenImpl, hc, he]
  · have hd := readAll_drain out true
    simpa using hd

/-- Witness for the amended C1 on the spec's scenario: three 32-bit
vectors `("0", [1,2,3])`, `("1", [4])`, `("2", [])`. -/
theorem claim1_roundtrip_witness :
    ∃ out : List (String × KValue),
      (⟨false, some ⟨KaldiDataType.FloatVector,
        [("0", KValue.vec [1, 2, 3]), ("1", KValue.vec [4]), ("2", KValue.vec [])]⟩⟩ :
          KaldiTableWriter).internal = some ⟨KaldiDataType.FloatVector, out⟩ ∧
      out.map Prod.fst =
        ([("0", PyValue.arr [1, 2, 3]), ("1", PyValue.arr [4]),
          ("2", PyValue.arr [])] : List (String × PyValue)).map Prod.fst ∧
      List.Forall₂ (fun p q => eqRule 1 p.2 q.2)
        [("0", PyValue.arr [1, 2, 3]), ("1", PyValue.arr [4]), ("2", PyValue.arr [])] out ∧
      (∀ env : KaldiEnv, env.seqTable KaldiDataType.FloatVector = some out →
        concreteDtype KaldiDataType.FloatVector = true →
        seqOpenImpl env "ark:foo.ark" KaldiDataType.FloatVector true ⟨none, false⟩ =
          (⟨some out, true⟩, none)) ∧
      readAll out.length ⟨some out, true⟩ =
        (out.map (fun q => SeqItem.keyed q.1 q.2), ⟨some [], true⟩) ∧
      KaldiSequentialTableReader.next ⟨some [], true⟩ =
        Except.error KaldiError.stopIteration :=
  claim1_roundtrip KaldiDataType.FloatVector
    [("0", PyValue.arr [1, 2, 3]), ("1", PyValue.arr [4]), ("2", PyValue.arr [])]
    1 false
    ⟨false, some ⟨KaldiDataType.FloatVector,
      [("0", KValue.vec [1, 2, 3]), ("1", KValue.vec [4]), ("2", KValue.vec [])]⟩⟩
    "ark:foo.ark" (by norm_num) rfl
    (by
      intro p hp
      simp at hp
      rcases hp with rfl | rfl | rfl <;> exact goodValue_arr _ _)

/-- Claim C1 as stated is false: a degenerate `(0, 1)` matrix written with
the float-matrix type is read back as the normalized `(0, 0)` matrix,
which is not equal to the written value under the matrix equality rule. -/
theorem claim1_counterexample :
    writeAll ⟨false, some ⟨KaldiDataType.FloatMatrix, []⟩⟩
        [("k", PyValue.mat 0 1 [])] =
      Except.ok ⟨false, some ⟨KaldiDataType.FloatMatrix, [("k", KValue.mat 0 0 [])]⟩⟩ ∧
    readAll 1 ⟨some [("k", KValue.mat 0 0 [])], true⟩ =
      ([SeqItem.keyed "k" (KValue.mat 0 0 [])], ⟨some [], true⟩) ∧
    ¬ eqRule 1 (PyValue.mat 0 1 []) (KValue.mat 0 0 []) := by
  refine ⟨rfl, rfl, fun h => ?_⟩
  exact absurd h.2.1 (by decide)

/-- On a concrete data type, a random-access `_open` without `utt2spk`
succeeds exactly when the native open does, ignoring which class the
dispatch picked. -/
theorem raOpenImpl_none_some (env : KaldiEnv) (xf : String) (d : KaldiDataType)
    (hc : concreteDtype d = true) (lr : List (String × KValue))
    (hra : env.raTable d = some lr) (st : KaldiRandomAccessTableReader) :
    raOpenImpl env xf d none st = (⟨some ⟨lr, none⟩⟩, none) := by
  cases d <;> simp_all [raOpenImpl, selectRAClass, truthy, concreteDtype]

/-- On a concrete data type, a failing random-access `_open` without
`utt2spk` raises the `IOError` and leaves the handle state unchanged. -/
theorem raOpenImpl_none_fail (env : KaldiEnv) (xf : String) (d : KaldiDataType)
    (hc : concreteDtype d = true) (hra : env.raTable d = none)
    (st : KaldiRandomAccessTableReader) :
    raOpenImpl env xf d none st
      = (st, some (KaldiError.ioError (writeOpenFailMsg xf))) := by
  cases d <;> simp_all [raOpenImpl, selectRAClass, truthy, concreteDtype]

/-- Claim C5: `tv_error_on_str` defaults to `True`; `_open` binds the
strict flag exactly for the token-vector type; with the flag set a bare
string is rejected with the `TypeError`; with it unset the string is
accepted, decomposed into one-token-per-character and read back as
single-character tokens; with the flag unset (every non-token-vector
type) the string rejection never fires. -/
theorem claim5_tv_error_on_str (env : KaldiEnv) (xf : String)
    (d : KaldiDataType) (tvErr : Bool) (stW : KaldiTableWriter)
    (key s : String) (w : List (String × KValue)) (st : KaldiTableWriter) :
    tv_error_on_str_default = true ∧
    (writerOpenImpl env xf d tvErr stW).1.error_on_str
      = (if d = KaldiDataType.TokenVector then tvErr else false) ∧
    KaldiTableWriter.write ⟨true, some ⟨KaldiDataType.TokenVector, w⟩⟩ key
        (PyValue.str s)
      = Except.error (KaldiError.typeError tvStrRejectMsg) ∧
    KaldiTableWriter.write ⟨false, some ⟨KaldiDataType.TokenVector, w⟩⟩ key
        (PyValue.str s)
      = Except.ok ⟨false, some ⟨KaldiDataType.TokenVector,
          w ++ [(key, KValue.tokVec (charTokens s))]⟩⟩ ∧
    readAll 1 ⟨some [(key, KValue.tokVec (charTokens s))], true⟩
      = ([SeqItem.keyed key (KValue.tokVec (charTokens s))], ⟨some [], true⟩) ∧
    (∀ c ∈ charTokens s, c.length = 1) ∧
    (st.error_on_str = false →
      st.write key (PyValue.str s)
        ≠ Except.error (KaldiError.typeError tvStrRejectMsg)) := by
  refine ⟨rfl, ?_, rfl, rfl, rfl, ?_, ?_⟩
  · unfold writerOpenImpl
    by_cases h1 : concreteDtype d = true
    · by_cases h2 : env.canWrite d = true
      · simp [h1, h2]
      · simp [h1, h2]
    · simp [h1]
  · intro c hc
    simp only [charTokens, List.mem_map] at hc
    obtain ⟨ch, _, rfl⟩ := hc
    rfl
  · intro hf hcontra
    cases st with
    | mk e i =>
      cases hf
      cases i with
      | none => simp [KaldiTableWriter.write] at hcontra
      | some wi =>
        cases wi with
        | mk d2 w2 =>
          cases d2 <;>
            simp [KaldiTableWriter.write, encodeValue, PyValue.isStr] at hcontra <;>
            exact absurd hcontra (by decide)

/-- Witness for C5 on the spec's scenario string `"oops"`. -/
theorem claim5_tv_error_on_str_witness :
    charTokens "oops" = ["o", "o", "p", "s"] ∧
    KaldiTableWriter.write ⟨true, some ⟨KaldiDataType.TokenVector, []⟩⟩ "a"
        (PyValue.str "oops")
      = Except.error (KaldiError.typeError tvStrRejectMsg) ∧
    KaldiTableWriter.write ⟨false, some ⟨KaldiDataType.TokenVector, []⟩⟩ "a"
        (PyValue.str "oops")
      = Except.ok ⟨false, some ⟨KaldiDataType.TokenVector,
          [("a", KValue.tokVec (charTokens "oops"))]⟩⟩ ∧
    KaldiTableWriter.write ⟨false, some ⟨KaldiDataType.Token, []⟩⟩ "a"
        (PyValue.str "oops")
      ≠ Except.error (KaldiError.typeError tvStrRejectMsg) := by
  have h := claim5_tv_error_on_str envOk "f" KaldiDataType.TokenVector true
    ⟨false, none⟩ "a" "oops" [] ⟨false, some ⟨KaldiDataType.Token, []⟩⟩
  exact ⟨by decide, h.2.2.1, by simpa using h.2.2.2.1, h.2.2.2.2.2.2 rfl⟩

/-- Claim C6: opening with a base alias behaves identically to opening
with the concrete type selected by the build constant `kDoubleIsBase`,
for all three handle kinds, and `is_double` returns `kDoubleIsBase` for
`bv`, `bm`, `wm`, `True` for `dv`, `dm`, and `False` otherwise. -/
theorem claim6_base_alias (env : KaldiEnv) (xf : String) (wk tvErr : Bool)
    (u : Option String) (stS : KaldiSequentialTableReader)
    (stR : KaldiRandomAccessTableReader) (stW : KaldiTableWriter)
    (flag : Bool) :
    seqOpenFull env xf KaldiDataType.BaseVector wk stS
      = seqOpenFull env xf
          (if env.kDoubleIsBase then KaldiDataType.DoubleVector
           else KaldiDataType.FloatVector) wk stS ∧
    seqOpenFull env xf KaldiDataType.BaseMatrix wk stS
      = seqOpenFull env xf
          (if env.kDoubleIsBase then KaldiDataType.DoubleMatrix
           else KaldiDataType.FloatMatrix) wk stS ∧
    raOpenFull env xf KaldiDataType.BaseVector u stR
      = raOpenFull env xf
          (if env.kDoubleIsBase then KaldiDataType.DoubleVector
           else KaldiDataType.FloatVector) u stR ∧
    raOpenFull env xf KaldiDataType.BaseMatrix u stR
      = raOpenFull env xf
          (if env.kDoubleIsBase then KaldiDataType.DoubleMatrix
           else KaldiDataType.FloatMatrix) u stR ∧
    writerOpenFull env xf KaldiDataType.BaseVector tvErr stW
      = writerOpenFull env xf
          (if env.kDoubleIsBase then KaldiDataType.DoubleVector
           else KaldiDataType.FloatVector) tvErr stW ∧
    writerOpenFull env xf KaldiDataType.BaseMatrix tvErr stW
      = writerOpenFull env xf
          (if env.kDoubleIsBase then KaldiDataType.DoubleMatrix
           else KaldiDataType.FloatMatrix) tvErr stW ∧
    KaldiDataType.is_double flag KaldiDataType.BaseVector = flag ∧
    KaldiDataType.is_double flag KaldiDataType.BaseMatrix = flag ∧
    KaldiDataType.is_double flag KaldiDataType.WaveMatrix = flag ∧
    KaldiDataType.is_double flag KaldiDataType.DoubleVector = true ∧
    KaldiDataType.is_double flag KaldiDataType.DoubleMatrix = true ∧
    KaldiDataType.is_double flag KaldiDataType.FloatVector = false ∧
    KaldiDataType.is_double flag KaldiDataType.FloatMatrix = false ∧
    KaldiDataType.is_double flag KaldiDataType.Token = false ∧
    KaldiDataType.is_double flag KaldiDataType.TokenVector = false := by
  cases hb : env.kDoubleIsBase <;> cases flag <;>
    refine ⟨?_, ?_, ?_, ?_, ?_, ?_, ?_, ?_, ?_, ?_, ?_, ?_, ?_, ?_, ?_⟩ <;>
    first
      | rfl
      | decide
      | simp [seqOpenFull, raOpenFull, writerOpenFull, resolveDtype, hb]

/-- Claim C8: a matrix value with exactly one zero axis is silently
normalized to the canonical `(0, 0)` empty matrix by the write (never an
error), and reading the location back yields the `(0, 0)` matrix. -/
theorem claim8_degenerate_matrix (d : KaldiDataType) (r c : Nat)
    (data : List (List ℚ)) (key : String) (b : Bool)
    (w : List (String × KValue))
    (hd : d = KaldiDataType.DoubleMatrix ∨ d = KaldiDataType.FloatMatrix ∨
          d = KaldiDataType.WaveMatrix)
    (hdeg : (r = 0 ∧ c ≠ 0) ∨ (r ≠ 0 ∧ c = 0)) :
    KaldiTableWriter.write ⟨b, some ⟨d, w⟩⟩ key (PyValue.mat r c data)
      = Except.ok ⟨b, some ⟨d, w ++ [(key, KValue.mat 0 0 [])]⟩⟩ ∧
    readAll 1 ⟨some [(key, KValue.mat 0 0 [])], true⟩
      = ([SeqItem.keyed key (KValue.mat 0 0 [])], ⟨some [], true⟩) := by
  have hn : normalizeMat r c data = KValue.mat 0 0 [] := by
    unfold normalizeMat
    rw [if_pos hdeg]
  constructor
  · rcases hd with rfl | rfl | rfl <;>
      simp [KaldiTableWriter.write, encodeValue, PyValue.isStr, hn]
  · rfl

/-- Witness for C8 at the concrete degenerate shape `(0, 1)`. -/
theorem claim8_degenerate_matrix_witness :
    KaldiTableWriter.write ⟨false, some ⟨KaldiDataType.FloatMatrix, []⟩⟩ "k"
        (PyValue.mat 0 1 [])
      = Except.ok ⟨false, some ⟨KaldiDataType.FloatMatrix,
          [("k", KValue.mat 0 0 [])]⟩⟩ ∧
    readAll 1 ⟨some [("k", KValue.mat 0 0 [])], true⟩
      = ([SeqItem.keyed "k" (KValue.mat 0 0 [])], ⟨some [], true⟩) := by
  have h := claim8_degenerate_matrix KaldiDataType.FloatMatrix 0 1 [] "k" false []
    (Or.inr (Or.inl rfl)) (Or.inl ⟨rfl, by decide⟩)
  simpa using h

/-- Claim C7 (amended): for the explicit-precision vector and matrix
types (`dv`, `fv`, `dm`, `fm`; the base aliases resolve to these before
dispatch), supplying a non-empty `utt2spk` selects the mapped reader
class, the open binds the key map, and every lookup key is translated
through the map before the indexed lookup; a key with no mapping fails
as a missing key (`None` or `KeyError`), never a crash. -/
theorem claim7_mapped_lookup (env : KaldiEnv) (xf : String)
    (d : KaldiDataType) (u : String) (tbl : List (String × KValue))
    (m : List (String × String)) (key : String)
    (hd : d = KaldiDataType.DoubleVector ∨ d = KaldiDataType.FloatVector ∨
          d = KaldiDataType.DoubleMatrix ∨ d = KaldiDataType.FloatMatrix)
    (hu : u ≠ "")
    (htbl : env.raTable d = some tbl)
    (hm : env.mapFiles u = some m) :
    ∃ cls : RAClass, selectRAClass d (some u) = some cls ∧
      cls.isMapped = true ∧
      raOpenImpl env xf d (some u) ⟨none⟩ = (⟨some ⟨tbl, some m⟩⟩, none) ∧
      (∀ k2 v, m.lookup key = some k2 → tbl.lookup k2 = some v →
        KaldiRandomAccessTableReader.get ⟨some ⟨tbl, some m⟩⟩ key false
          = Except.ok (some v)) ∧
      (m.lookup key = none →
        KaldiRandomAccessTableReader.get ⟨some ⟨tbl, some m⟩⟩ key false
          = Except.ok none ∧
        KaldiRandomAccessTableReader.get ⟨some ⟨tbl, some m⟩⟩ key true
          = Except.error (KaldiError.keyError key)) := by
  have htr : truthy (some u) = true := by simp [truthy, hu]
  have hget1 : ∀ k2 v, m.lookup key = some k2 → tbl.lookup k2 = some v →
      KaldiRandomAccessTableReader.get ⟨some ⟨tbl, some m⟩⟩ key false
        = Except.ok (some v) := by
    intro k2 v h1 h2
    simp [KaldiRandomAccessTableReader.get, raLookup, h1, h2]
  have hget2 : m.lookup key = none →
      KaldiRandomAccessTableReader.get ⟨some ⟨tbl, some m⟩⟩ key false
        = Except.ok none ∧
      KaldiRandomAccessTableReader.get ⟨some ⟨tbl, some m⟩⟩ key true
        = Except.error (KaldiError.keyError key) := by
    intro h1
    constructor <;> simp [KaldiRandomAccessTableReader.get, raLookup, h1]
  rcases hd with rfl | rfl | rfl | rfl
  · exact ⟨RAClass.RandomAccessDoubleVectorReaderMapped,
      by simp [selectRAClass, htr], rfl,
      by simp [raOpenImpl, selectRAClass, htr, htbl, hm, RAClass.isMapped],
      hget1, hget2⟩
  · exact ⟨RAClass.RandomAccessFloatVectorReaderMapped,
      by simp [selectRAClass, htr], rfl,
      by simp [raOpenImpl, selectRAClass, htr, htbl, hm, RAClass.isMapped],
      hget1, hget2⟩
  · exact ⟨RAClass.RandomAccessDoubleMatrixReaderMapped,
      by simp [selectRAClass, htr], rfl,
      by simp [raOpenImpl, selectRAClass, htr, htbl, hm, RAClass.isMapped],
      hget1, hget2⟩
  · exact ⟨RAClass.RandomAccessFloatMatrixReaderMapped,
      by simp [selectRAClass, htr], rfl,
      by simp [raOpenImpl, selectRAClass, htr, htbl, hm, RAClass.isMapped],
      hget1, hget2⟩

/-- Witness for the amended C7 on a concrete mapped table. -/
theorem claim7_mapped_lookup_witness :
    raOpenImpl envMapped "scp:feats.scp" KaldiDataType.DoubleVector
        (some "u2s") ⟨none⟩
      = (⟨some ⟨[("spk1", KValue.vec [1])], some [("utt1", "spk1")]⟩⟩, none) ∧
    KaldiRandomAccessTableReader.get
        ⟨some ⟨[("spk1", KValue.vec [1])], some [("utt1", "spk1")]⟩⟩ "utt1" false
      = Except.ok (some (KValue.vec [1])) ∧
    KaldiRandomAccessTableReader.get
        ⟨some ⟨[("spk1", KValue.vec [1])], some [("utt1", "spk1")]⟩⟩ "zzz" true
      = Except.error (KaldiError.keyError "zzz") := by
  have ha := claim7_mapped_lookup envMapped "scp:feats.scp"
    KaldiDataType.DoubleVector "u2s" [("spk1", KValue.vec [1])]
    [("utt1", "spk1")] "utt1" (Or.inl rfl) (by decide) rfl rfl
  have hb := claim7_mapped_lookup envMapped "scp:feats.scp"
    KaldiDataType.DoubleVector "u2s" [("spk1", KValue.vec [1])]
    [("utt1", "spk1")] "zzz" (Or.inl rfl) (by decide) rfl rfl
  obtain ⟨c1, _, _, h3, h4, _⟩ := ha
  obtain ⟨c2, _, _, _, _, h5⟩ := hb
  exact ⟨h3, h4 "spk1" (KValue.vec [1]) (by decide) (by decide),
    (h5 (by decide)).2⟩

/-- Claim C7 is false as stated: with the wave-matrix type and a key map
supplied, the source's dispatch selects the unmapped
`RandomAccessWaveReader`, not a mapped reader, so the mapped-lookup
behavior is not engaged (the `Open` call then fails at the wrapper). -/
theorem claim7_counterexample :
    selectRAClass KaldiDataType.WaveMatrix (some "u2s.map")
      = some RAClass.RandomAccessWaveReader ∧
    RAClass.isMapped RAClass.RandomAccessWaveReader = false ∧
    raOpenImpl envOk "ark:w.ark" KaldiDataType.WaveMatrix
        (some "u2s.map") ⟨none⟩
      = (⟨none⟩, some (KaldiError.typeError swigArityMsg)) := by
  refine ⟨by decide, rfl, by decide⟩

/-- Claim C9: a failed native open raises an `IOError` whose message
carries the original location string and leaves the handle's internal
resource unset (prior closed state), so a later close or a successful
reopen remains valid — for all three handle kinds. -/
theorem claim9_open_failure (env : KaldiEnv) (xf : String)
    (d : KaldiDataType) (wk wkOld b tvErr : Bool)
    (hseq : env.seqTable (resolveDtype env.kDoubleIsBase d) = none)
    (hra : env.raTable (resolveDtype env.kDoubleIsBase d) = none)
    (hwr : env.canWrite (resolveDtype env.kDoubleIsBase d) = false) :
    seqOpenFull env xf d wk ⟨none, wkOld⟩
      = (⟨none, wk⟩, some (KaldiError.ioError (seqOpenFailMsg xf))) ∧
    (∃ p s, seqOpenFailMsg xf = p ++ xf ++ s) ∧
    raOpenFull env xf d none ⟨none⟩
      = (⟨none⟩, some (KaldiError.ioError (writeOpenFailMsg xf))) ∧
    (∃ p s, writeOpenFailMsg xf = p ++ xf ++ s) ∧
    (writerOpenFull env xf d tvErr ⟨b, none⟩).1.internal = none ∧
    (writerOpenFull env xf d tvErr ⟨b, none⟩).2
      = some (KaldiError.ioError (writeOpenFailMsg xf)) ∧
    KaldiSequentialTableReader.close ⟨none, wk⟩ = ⟨none, wk⟩ ∧
    (∀ env2 : KaldiEnv, ∀ l,
      env2.seqTable (resolveDtype env2.kDoubleIsBase d) = some l →
      seqOpenFull env2 xf d wk ⟨none, wk⟩ = (⟨some l, wk⟩, none)) := by
  refine ⟨?_, ⟨"Unable to open file \"", "\" for sequential read.", rfl⟩, ?_,
    ⟨"Unable to open file \"", "\" for writing.", rfl⟩, ?_, ?_, rfl, ?_⟩
  · simp [seqOpenFull, seqOpenImpl, resolve_concrete, hseq]
  · unfold raOpenFull
    exact raOpenImpl_none_fail env xf _ (resolve_concrete _ _) hra ⟨none⟩
  · simp [writerOpenFull, writerOpenImpl, resolve_concrete, hwr]
  · simp [writerOpenFull, writerOpenImpl, resolve_concrete, hwr]
  · intro env2 l h2
    simp [seqOpenFull, seqOpenImpl, resolve_concrete, h2]

/-- Witness for C9 in an environment where every native open fails. -/
theorem claim9_open_failure_witness :
    seqOpenFull envEmpty "foo.scp" KaldiDataType.BaseVector false ⟨none, false⟩
      = (⟨none, false⟩, some (KaldiError.ioError (seqOpenFailMsg "foo.scp"))) ∧
    (∃ p s, seqOpenFailMsg "foo.scp" = p ++ "foo.scp" ++ s) ∧
    raOpenFull envEmpty "foo.scp" KaldiDataType.BaseVector none ⟨none⟩
      = (⟨none⟩, some (KaldiError.ioError (writeOpenFailMsg "foo.scp"))) := by
  have h := claim9_open_failure envEmpty "foo.scp" KaldiDataType.BaseVector
    false false false false rfl rfl rfl
  exact ⟨h.1, h.2.1, h.2.2.1⟩

/-- Claim C10: the factory `tables.open` dispatches `"r"` to an opened
sequential reader, `"r+"` to an opened random-access reader, `"w"` and
the undocumented alias `"w+"` to an opened writer, and raises
`ValueError` for every other mode before attempting any native open. -/
theorem claim10_factory (env : KaldiEnv) (xf : String) (d : KaldiDataType)
    (mode : String) (l lr : List (String × KValue))
    (hseq : env.seqTable (resolveDtype env.kDoubleIsBase d) = some l)
    (hra : env.raTable (resolveDtype env.kDoubleIsBase d) = some lr)
    (hwr : env.canWrite (resolveDtype env.kDoubleIsBase d) = true) :
    tablesOpen env xf d "r"
      = (Except.ok (OpenedHandle.seq ⟨some l, false⟩), [xf]) ∧
    tablesOpen env xf d "r+"
      = (Except.ok (OpenedHandle.ra ⟨some ⟨lr, none⟩⟩), [xf]) ∧
    tablesOpen env xf d "w"
      = (Except.ok (OpenedHandle.writer
          ⟨if resolveDtype env.kDoubleIsBase d = KaldiDataType.TokenVector
              then tv_error_on_str_default else false,
            some ⟨resolveDtype env.kDoubleIsBase d, []⟩⟩), [xf]) ∧
    tablesOpen env xf d "w+"
      = (Except.ok (OpenedHandle.writer
          ⟨if resolveDtype env.kDoubleIsBase d = KaldiDataType.TokenVector
              then tv_error_on_str_default else false,
            some ⟨resolveDtype env.kDoubleIsBase d, []⟩⟩), [xf]) ∧
    (mode ≠ "r" → mode ≠ "r+" → mode ≠ "w" → mode ≠ "w+" →
      tablesOpen env xf d mode
        = (Except.error (KaldiError.valueError (badModeMsg mode)), [])) := by
  have hra2 := raOpenImpl_none_some env xf _ (resolve_concrete env.kDoubleIsBase d)
    lr hra ⟨none⟩
  refine ⟨?_, ?_, ?_, ?_, ?_⟩
  · simp [tablesOpen, seqOpenFull, seqOpenImpl, resolve_concrete, hseq]
  · unfold tablesOpen
    rw [if_neg (by decide : ¬("r+" : String) = "r"), if_pos rfl]
    unfold raOpenFull
    rw [hra2]
  · unfold tablesOpen
    rw [if_neg (by decide : ¬("w" : String) = "r"),
      if_neg (by decide : ¬("w" : String) = "r+")]
    simp [writerOpenFull, writerOpenImpl, resolve_concrete, hwr]
  · unfold tablesOpen
    rw [if_neg (by decide : ¬("w+" : String) = "r"),
      if_neg (by decide : ¬("w+" : String) = "r+")]
    simp [writerOpenFull, writerOpenImpl, resolve_concrete, hwr]
  · intro h1 h2 h3 h4
    simp [tablesOpen, h1, h2, h3, h4]

/-- Witness for C10 at concrete modes, including an invalid one. -/
theorem claim10_factory_witness :
    tablesOpen envOk "t.ark" KaldiDataType.Token "r"
      = (Except.ok (OpenedHandle.seq ⟨some [], false⟩), ["t.ark"]) ∧
    tablesOpen envOk "t.ark" KaldiDataType.Token "r+"
      = (Except.ok (OpenedHandle.ra ⟨some ⟨[], none⟩⟩), ["t.ark"]) ∧
    tablesOpen envOk "t.ark" KaldiDataType.Token "x"
      = (Except.error (KaldiError.valueError (badModeMsg "x")), []) := by
  have h := claim10_factory envOk "t.ark" KaldiDataType.Token "x" [] [] rfl rfl rfl
  exact ⟨h.1, h.2.1, h.2.2.2.2 (by decide) (by decide) (by decide) (by decide)⟩
